import Mathlib

/-!
Shallow embedding of the network interface monitor of the
obs-srtla-sender-plugin repository (`src/network-monitor.h`,
`src/network-monitor.cpp`), with theorems settling the specification's
claims about it.

Modelling conventions:
* The OS enumeration `getifaddrs` is an explicit input of type
  `Option (List Ifaddr)`: `none` models `getifaddrs` returning `-1`,
  `some l` models the linked list of `ifaddrs` entries in traversal order.
* File I/O in `saveIpListToFile` is modelled by an `openOk : Bool` input
  (whether the `std::ofstream` opened the destination) and the bytes
  written are returned as `Option String` (`none` when the file never
  opened, `some content` otherwise).
* Member functions become state-passing functions on the `NetworkMonitor`
  structure holding the member variables `m_running`, `m_interfaces` and
  `m_callbacks`. The mutex is represented by the atomicity of each step
  function. Callbacks are identified by a `Nat` id; invoking a callback is
  recorded as an event `(id, snapshot passed to it)` in an event list, in
  invocation order.
-/

/-- Mirrors `struct NetworkInterface` in `network-monitor.h`. -/
structure NetworkInterface where
  name : String
  ipAddress : String
  isWireless : Bool
  isEthernet : Bool
  isModem : Bool
  isActive : Bool
deriving DecidableEq, Repr

/-- One entry of the `ifaddrs` linked list produced by `getifaddrs`, with
exactly the fields `NetworkMonitor::detectNetworkInterfaces` reads: the
interface name, whether `ifa_addr` is non-null, whether its `sa_family` is
`AF_INET`, the `IFF_UP` / `IFF_RUNNING` / `IFF_LOOPBACK` bits of
`ifa_flags`, and the string `inet_ntop` renders for the IPv4 address. -/
structure Ifaddr where
  ifa_name : String
  addrNonNull : Bool
  isAFInet : Bool
  up : Bool
  running : Bool
  loopback : Bool
  inetNtop : String
deriving DecidableEq, Repr

/-- Lexicographic character-list test used to model
`std::string::find(pat) == 0` (i.e. `pat` occurs at position 0). -/
def listStartsCh : List Char → List Char → Bool
  | [], _ => true
  | _ :: _, [] => false
  | p :: ps, s :: ss => p == s && listStartsCh ps ss

/-- Model of the C++ test `s.find(pat) == 0` on `std::string`. -/
def findEqZero (s pat : String) : Bool :=
  listStartsCh pat.toList s.toList

/-- The body of the enumeration loop of
`NetworkMonitor::detectNetworkInterfaces` for one `ifaddrs` entry:
`none` when the entry is skipped (a `continue` in the source), `some iface`
when it is pushed onto the result vector. Field for field this mirrors
lines 122-155 of `network-monitor.cpp`: null `ifa_addr` and non-`AF_INET`
entries are skipped; the classification flags are derived from the name by
prefix conventions; entries named `lo` or carrying `IFF_LOOPBACK` are
skipped; the address is whatever `inet_ntop` rendered. -/
def detectEntry (ifa : Ifaddr) : Option NetworkInterface :=
  if !ifa.addrNonNull then none
  else if !ifa.isAFInet then none
  else
    let name := ifa.ifa_name
    let isActive := ifa.up && ifa.running
    let isEthernet := findEqZero name "eth" || findEqZero name "en" ||
                      findEqZero name "eno" || findEqZero name "enp"
    let isWireless := findEqZero name "wlan" || findEqZero name "wifi" ||
                      findEqZero name "wl"
    let isModem := findEqZero name "ppp" || findEqZero name "tun" ||
                   findEqZero name "tap"
    if name == "lo" || ifa.loopback then none
    else some { name := name, ipAddress := ifa.inetNtop,
                isWireless := isWireless, isEthernet := isEthernet,
                isModem := isModem, isActive := isActive }

/-- `NetworkMonitor::detectNetworkInterfaces` as a function of the
`getifaddrs` outcome: the empty vector when `getifaddrs` fails, otherwise
the entries kept by the loop, in enumeration order. -/
def detectNetworkInterfacesOf (enum : Option (List Ifaddr)) :
    List NetworkInterface :=
  match enum with
  | none => []
  | some ifas => ifas.filterMap detectEntry

/-- The member state of `NetworkMonitor` (`network-monitor.h` lines 43-46,
without the mutex, which the step functions' atomicity models). Callbacks
are identified by `Nat` ids held in registration order. -/
structure NetworkMonitor where
  m_running : Bool
  m_interfaces : List NetworkInterface
  m_callbacks : List Nat
deriving DecidableEq, Repr

/-- `NetworkMonitor::start` (lines 24-30): a no-op when already running;
otherwise sets the running flag and launches the detached monitor thread.
The returned `Bool` records whether a thread was launched by this call. -/
def NetworkMonitor.start (st : NetworkMonitor) : NetworkMonitor × Bool :=
  if st.m_running then (st, false)
  else ({ st with m_running := true }, true)

/-- `NetworkMonitor::stop` (lines 32-34): clears the running flag and
returns immediately; nothing else is touched and nothing is joined. -/
def NetworkMonitor.stop (st : NetworkMonitor) : NetworkMonitor :=
  { st with m_running := false }

/-- `NetworkMonitor::getNetworkInterfaces` (lines 36-39): a locked read of
the stored snapshot. -/
def NetworkMonitor.getNetworkInterfaces (st : NetworkMonitor) :
    List NetworkInterface :=
  st.m_interfaces

/-- `NetworkMonitor::registerCallback` (lines 88-91): appends the callback
to `m_callbacks` under the lock. -/
def NetworkMonitor.registerCallback (st : NetworkMonitor) (c : Nat) :
    NetworkMonitor :=
  { st with m_callbacks := st.m_callbacks ++ [c] }

/-- The body of the write loop of `NetworkMonitor::saveIpListToFile`
(lines 60-72) for one interface: the line written to the file, if any.
Loopback entries (`127.0.0.1` or name `lo`) are skipped; of the rest, the
active ones with a non-empty address contribute `ipAddress` followed by a
newline. -/
def ipLine (iface : NetworkInterface) : Option String :=
  if iface.ipAddress == "127.0.0.1" || iface.name == "lo" then none
  else if iface.isActive && !iface.ipAddress.isEmpty then
    some (iface.ipAddress ++ "\n")
  else none

/-- The filter of `ipLine` by itself: an interface contributes a line to
the IP file precisely when this holds. -/
def relevantLine (iface : NetworkInterface) : Bool :=
  !(iface.ipAddress == "127.0.0.1" || iface.name == "lo") &&
    (iface.isActive && !iface.ipAddress.isEmpty)

/-- `NetworkMonitor::saveIpListToFile` (lines 41-86): forces a fresh
detection, stores it as the current snapshot under the lock, then opens the
destination; on open failure returns `false` (nothing written); otherwise
writes the relevant address lines in iteration order and returns `true`
(also when no line at all was written, which the source documents as not an
error). The result is (return value, state after the call, bytes written to
the destination or `none` if it never opened). -/
def NetworkMonitor.saveIpListToFile (st : NetworkMonitor)
    (enum : Option (List Ifaddr)) (openOk : Bool) :
    Bool × NetworkMonitor × Option String :=
  let interfaces := detectNetworkInterfacesOf enum
  let st' := { st with m_interfaces := interfaces }
  if !openOk then (false, st', none)
  else (true, st', some (String.join (interfaces.filterMap ipLine)))

/-- The filter `NetworkMonitor::haveInterfacesChanged` applies to both
snapshots (lines 169-179): active, non-empty address, address not
`127.0.0.1`, name not `lo`. -/
def relevantIp (iface : NetworkInterface) : Bool :=
  iface.isActive && !iface.ipAddress.isEmpty &&
    iface.ipAddress != "127.0.0.1" && iface.name != "lo"

/-- The relevant IP address strings extracted from a snapshot by the two
collection loops of `haveInterfacesChanged`, in snapshot order. -/
def relevantIps (l : List NetworkInterface) : List String :=
  (l.filter relevantIp).map (fun iface => iface.ipAddress)

/-- Model of `std::sort` on a `std::vector<std::string>` with the default
lexicographic `operator<`: a sort of the list under the lexicographic
order on strings. -/
def sortIps (l : List String) : List String :=
  l.mergeSort (fun a b => decide (a ≤ b))

/-- `NetworkMonitor::haveInterfacesChanged` (lines 163-197): extract the
relevant IPs of both snapshots, sort both, report a change when the lengths
differ, otherwise when some position differs (for equal-length lists the
index loop of lines 190-194 returns `true` exactly when the lists are
unequal), otherwise report no change. -/
def NetworkMonitor.haveInterfacesChanged
    (oldInterfaces newInterfaces : List NetworkInterface) : Bool :=
  let oldIps := sortIps (relevantIps oldInterfaces)
  let newIps := sortIps (relevantIps newInterfaces)
  if oldIps.length ≠ newIps.length then true
  else if oldIps ≠ newIps then true
  else false

/-- `NetworkMonitor::notifyNetworkChange` (lines 199-209): under the lock,
copies `m_interfaces` and invokes each callback of `m_callbacks` in order,
passing the copy; the returned event list records the invocations in
order. -/
def NetworkMonitor.notifyNetworkChange (st : NetworkMonitor) :
    List (Nat × List NetworkInterface) :=
  st.m_callbacks.map (fun c => (c, st.m_interfaces))

/-- One iteration of the `while (m_running)` body of
`NetworkMonitor::monitorThread` (lines 96-110): detect fresh interfaces;
if they changed relative to the loop-local `lastInterfaces`, store them as
the snapshot under the lock and notify; always continue with
`lastInterfaces` set to the fresh detection. Returns (state after the
iteration, new `lastInterfaces`, callback events of the iteration). -/
def NetworkMonitor.monitorStep (st : NetworkMonitor)
    (lastInterfaces : List NetworkInterface) (enum : Option (List Ifaddr)) :
    NetworkMonitor × List NetworkInterface ×
      List (Nat × List NetworkInterface) :=
  let currentInterfaces := detectNetworkInterfacesOf enum
  if NetworkMonitor.haveInterfacesChanged lastInterfaces currentInterfaces then
    let st' := { st with m_interfaces := currentInterfaces }
    (st', currentInterfaces, st'.notifyNetworkChange)
  else
    (st, currentInterfaces, [])

/-- Calling `NetworkMonitor::detectNetworkInterfaces` (lines 113-161) as a
member function: its body reads and writes no member state and invokes
nothing, so as a state-passing operation it returns the state unchanged,
the enumeration result, and no callback events. -/
def NetworkMonitor.detectCall (st : NetworkMonitor)
    (enum : Option (List Ifaddr)) :
    NetworkMonitor × List NetworkInterface ×
      List (Nat × List NetworkInterface) :=
  (st, detectNetworkInterfacesOf enum, [])

/-- Enumeration entry for an up-and-running `eth0` with address
`192.168.1.5`. -/
def ifaEth0 : Ifaddr :=
  ⟨"eth0", true, true, true, true, false, "192.168.1.5"⟩

/-- Enumeration entry for a down `wlan0` whose address renders as
`192.168.1.9`. -/
def ifaDown : Ifaddr :=
  ⟨"wlan0", true, true, false, false, false, "192.168.1.9"⟩

/-- Enumeration entry for the loopback interface `lo`. -/
def ifaLo : Ifaddr :=
  ⟨"lo", true, true, true, true, true, "127.0.0.1"⟩

/-- Enumeration entry named `dummy0`, up and running, loopback flag clear,
whose IPv4 address renders as `127.0.0.1`. -/
def ifaDummy127 : Ifaddr :=
  ⟨"dummy0", true, true, true, true, false, "127.0.0.1"⟩

/-- Active detected interface `eth0` with address `10.0.0.1`. -/
def ifaceA : NetworkInterface :=
  ⟨"eth0", "10.0.0.1", false, true, false, true⟩

/-- Active detected interface `eth1` carrying the same address
`10.0.0.1`. -/
def ifaceB : NetworkInterface :=
  ⟨"eth1", "10.0.0.1", false, true, false, true⟩

/-- Detected form of `ifaEth0`. -/
def ifaceEth0 : NetworkInterface :=
  ⟨"eth0", "192.168.1.5", false, true, false, true⟩

/-- Monitor state before any detection: not running, empty snapshot, no
callbacks. -/
def stInit : NetworkMonitor := ⟨false, [], []⟩

/-- Running monitor with two callbacks registered in the order 7 then 8. -/
def stTwoCallbacks : NetworkMonitor :=
  (NetworkMonitor.mk true [] []).registerCallback 7 |>.registerCallback 8

/-- The sort used in `haveInterfacesChanged` permutes its input. -/
theorem sortIps_perm (l : List String) : (sortIps l).Perm l :=
  List.mergeSort_perm l _

/-- The sort used in `haveInterfacesChanged` sorts under the lexicographic
order on strings. -/
theorem sortIps_sorted (l : List String) : List.Sorted (· ≤ ·) (sortIps l) := by
  have htrans : ∀ a b c : String, decide (a ≤ b) = true → decide (b ≤ c) = true →
      decide (a ≤ c) = true := by
    intro a b c hab hbc
    simp only [decide_eq_true_eq] at *
    exact le_trans hab hbc
  have htotal : ∀ a b : String, (decide (a ≤ b) || decide (b ≤ a)) = true := by
    intro a b
    simp only [Bool.or_eq_true, decide_eq_true_eq]
    exact le_total a b
  have h := @List.sorted_mergeSort String (fun a b => decide (a ≤ b)) htrans htotal l
  exact h.imp (fun hab => by simpa using hab)

/-- Two string lists have equal sorts precisely when they are permutations
of each other. -/
theorem sortIps_eq_iff (a b : List String) :
    sortIps a = sortIps b ↔ a.Perm b := by
  constructor
  · intro h
    have h1 := (sortIps_perm a).symm
    rw [h] at h1
    exact h1.trans (sortIps_perm b)
  · intro h
    exact List.eq_of_perm_of_sorted
      (((sortIps_perm a).trans h).trans (sortIps_perm b).symm)
      (sortIps_sorted a) (sortIps_sorted b)

/-- Characterization of `haveInterfacesChanged`: it reports no change
precisely when the relevant address lists of the two snapshots are
permutations of each other. -/
theorem haveInterfacesChanged_eq_false_iff (o n : List NetworkInterface) :
    NetworkMonitor.haveInterfacesChanged o n = false ↔
      (relevantIps o).Perm (relevantIps n) := by
  rw [← sortIps_eq_iff]
  unfold NetworkMonitor.haveInterfacesChanged
  dsimp only
  split_ifs with h1 h2
  · simp only [Bool.true_eq_false, false_iff]
    intro he
    exact h1 (by rw [he])
  · simp only [Bool.true_eq_false, false_iff]
    exact h2
  · simp only [true_iff]
    exact not_not.mp h2

/-- A difference in the number of relevant addresses is always reported as
a change. -/
theorem haveInterfacesChanged_of_length_ne (o n : List NetworkInterface)
    (h : (relevantIps o).length ≠ (relevantIps n).length) :
    NetworkMonitor.haveInterfacesChanged o n = true := by
  cases hb : NetworkMonitor.haveInterfacesChanged o n with
  | true => rfl
  | false =>
    exact absurd ((haveInterfacesChanged_eq_false_iff o n).mp hb).length_eq h

/-- C1 (amended): `haveInterfacesChanged` reports no change precisely when
the relevant address collections of the two snapshots are permutations of
each other, i.e. equal as multisets with duplicates counted. Consequently
any difference in set membership (an address added, removed or swapped) is
reported as a change, and re-ordering of interfaces with the same relevant
address multiset is never reported; but two snapshots whose relevant
addresses agree as sets while differing in duplicate counts are also
reported as a change. -/
theorem haveInterfacesChanged_iff_relevant_perm (o n : List NetworkInterface) :
    NetworkMonitor.haveInterfacesChanged o n = false ↔
      (relevantIps o).Perm (relevantIps n) :=
  haveInterfacesChanged_eq_false_iff o n

/-- C1 counterexample: the snapshots `[ifaceA, ifaceB]` (two active
interfaces both carrying `10.0.0.1`) and `[ifaceA]` have the same *set* of
relevant addresses, yet `haveInterfacesChanged` reports a change, so the
comparison is not a comparison of sets of IP address strings. -/
theorem haveInterfacesChanged_not_set_based :
    (relevantIps [ifaceA, ifaceB]).toFinset = (relevantIps [ifaceA]).toFinset ∧
    NetworkMonitor.haveInterfacesChanged [ifaceA, ifaceB] [ifaceA] = true :=
  ⟨by decide, haveInterfacesChanged_of_length_ne _ _ (by decide)⟩

/-- A kept enumeration entry was neither named `lo` nor loopback-flagged,
and the kept interface keeps the entry's name. -/
theorem detectEntry_kept (ifa : Ifaddr) (iface : NetworkInterface)
    (h : detectEntry ifa = some iface) :
    iface.name ≠ "lo" ∧ ifa.loopback = false := by
  unfold detectEntry at h
  dsimp only at h
  split_ifs at h with h1 h2 h3
  rw [Option.some.injEq] at h
  subst h
  simp only [Bool.or_eq_true, beq_iff_eq, not_or, Bool.not_eq_true] at h3
  exact ⟨h3.1, h3.2⟩

/-- C2 (amended): a detected snapshot never contains an entry named `lo`,
and every detected entry stems from an enumeration entry whose
`IFF_LOOPBACK` flag is clear; detection does not filter on the address
`127.0.0.1` itself, so an entry carrying that address under a non-loopback
name can appear (that filtering happens at consumption time instead). -/
theorem detectNetworkInterfaces_no_loopback (enum : Option (List Ifaddr))
    (iface : NetworkInterface)
    (h : iface ∈ detectNetworkInterfacesOf enum) :
    iface.name ≠ "lo" ∧
      ∃ ifa ∈ enum.getD [], ifa.loopback = false ∧
        detectEntry ifa = some iface := by
  cases enum with
  | none => simp [detectNetworkInterfacesOf] at h
  | some l =>
    simp only [detectNetworkInterfacesOf, List.mem_filterMap] at h
    obtain ⟨ifa, hmem, hde⟩ := h
    obtain ⟨hname, hloop⟩ := detectEntry_kept ifa iface hde
    exact ⟨hname, ifa, hmem, hloop, hde⟩

/-- C2 counterexample: the enumeration entry `ifaDummy127` (name `dummy0`,
loopback flag clear, address rendered `127.0.0.1`) survives detection, so a
detected snapshot can contain an entry with address `127.0.0.1`. -/
theorem detect_keeps_address_127 :
    (detectNetworkInterfacesOf (some [ifaDummy127])).map
      (fun iface => iface.ipAddress) = ["127.0.0.1"] := by decide

/-- Witness for C2: `detectNetworkInterfaces_no_loopback` instantiated at
the concrete enumeration `[ifaEth0]` and its detected entry. -/
theorem detectNetworkInterfaces_no_loopback_witness :
    ifaceEth0.name ≠ "lo" ∧
      ∃ ifa ∈ (some [ifaEth0] : Option (List Ifaddr)).getD [],
        ifa.loopback = false ∧ detectEntry ifa = some ifaceEth0 :=
  detectNetworkInterfaces_no_loopback (some [ifaEth0]) ifaceEth0 (by decide)

/-- C3: `saveIpListToFile` returns failure precisely when the destination
cannot be opened; and whenever the fresh detection yields no relevant line
(all interfaces inactive, loopback or addressless), the call writes no
address bytes and still returns success. -/
theorem saveIpListToFile_failure_iff (st : NetworkMonitor)
    (enum : Option (List Ifaddr)) :
    (∀ openOk, (st.saveIpListToFile enum openOk).1 = false ↔ openOk = false) ∧
    ((detectNetworkInterfacesOf enum).filterMap ipLine = [] →
      (st.saveIpListToFile enum true).1 = true ∧
      (st.saveIpListToFile enum true).2.2 = some "") := by
  constructor
  · intro openOk
    cases openOk <;> simp [NetworkMonitor.saveIpListToFile]
  · intro h
    refine ⟨by simp [NetworkMonitor.saveIpListToFile], ?_⟩
    simp [NetworkMonitor.saveIpListToFile, h, String.join]

/-- Witness for C3: with only the down `wlan0` enumerated, an openable
destination receives no bytes and the call succeeds, while an unopenable
destination makes the call fail. -/
theorem saveIpListToFile_failure_iff_witness :
    ((stInit.saveIpListToFile (some [ifaDown]) false).1 = false) ∧
    (stInit.saveIpListToFile (some [ifaDown]) true).1 = true ∧
    (stInit.saveIpListToFile (some [ifaDown]) true).2.2 = some "" :=
  ⟨((saveIpListToFile_failure_iff stInit (some [ifaDown])).1 false).mpr rfl,
   (saveIpListToFile_failure_iff stInit (some [ifaDown])).2 (by decide)⟩

/-- C4: when the fresh detection differs from the loop-local previous
snapshot, the iteration first replaces the stored snapshot with the fresh
detection and then invokes the callbacks in registration order, every
event carrying exactly the newly stored snapshot (the event list models
the synchronous one-after-the-other invocations). -/
theorem monitorStep_notifies_in_order (st : NetworkMonitor)
    (last : List NetworkInterface) (enum : Option (List Ifaddr))
    (h : NetworkMonitor.haveInterfacesChanged last
      (detectNetworkInterfacesOf enum) = true) :
    (st.monitorStep last enum).1.m_interfaces = detectNetworkInterfacesOf enum ∧
    (st.monitorStep last enum).2.2 =
      st.m_callbacks.map
        (fun c => (c, (st.monitorStep last enum).1.m_interfaces)) := by
  simp [NetworkMonitor.monitorStep, h, NetworkMonitor.notifyNetworkChange]

/-- Witness for C4: a change detected from the empty previous snapshot with
callbacks 7 and 8 registered in that order. -/
theorem monitorStep_notifies_in_order_witness :
    (stTwoCallbacks.monitorStep [] (some [ifaEth0])).1.m_interfaces =
      detectNetworkInterfacesOf (some [ifaEth0]) ∧
    (stTwoCallbacks.monitorStep [] (some [ifaEth0])).2.2 =
      stTwoCallbacks.m_callbacks.map
        (fun c => (c,
          (stTwoCallbacks.monitorStep [] (some [ifaEth0])).1.m_interfaces)) :=
  monitorStep_notifies_in_order stTwoCallbacks [] (some [ifaEth0])
    (haveInterfacesChanged_of_length_ne _ _ (by decide))

/-- C5 (amended): each iteration replaces the loop-local previous snapshot
with the fresh detection, but replaces the *stored* snapshot only when a
change was detected; on a no-change iteration the stored snapshot is left
untouched and need not equal the snapshot just detected. -/
theorem monitorStep_store_only_on_change (st : NetworkMonitor)
    (last : List NetworkInterface) (enum : Option (List Ifaddr)) :
    (st.monitorStep last enum).1.m_interfaces =
      (if NetworkMonitor.haveInterfacesChanged last (detectNetworkInterfacesOf enum)
       then detectNetworkInterfacesOf enum else st.m_interfaces) ∧
    (st.monitorStep last enum).2.1 = detectNetworkInterfacesOf enum := by
  unfold NetworkMonitor.monitorStep
  dsimp only
  split_ifs <;> exact ⟨rfl, rfl⟩

/-- C5 counterexample: a no-change iteration does not store the fresh
detection: starting from an empty stored snapshot and empty previous
snapshot, an iteration whose detection yields only the inactive `wlan0`
(relevant set empty, so no change is signaled) leaves the stored snapshot
empty while the snapshot detected in that iteration is not. -/
theorem monitorStep_keeps_stale_snapshot :
    (NetworkMonitor.monitorStep ⟨true, [], []⟩ [] (some [ifaDown])).1.m_interfaces ≠
      detectNetworkInterfacesOf (some [ifaDown]) := by
  have h1 : relevantIps (detectNetworkInterfacesOf (some [ifaDown])) = [] := by
    decide
  have hf : NetworkMonitor.haveInterfacesChanged []
      (detectNetworkInterfacesOf (some [ifaDown])) = false := by
    rw [haveInterfacesChanged_eq_false_iff, h1]
    exact List.Perm.refl _
  simp only [NetworkMonitor.monitorStep, hf]
  decide

/-- C6: calling `detectNetworkInterfaces` as an operation of the monitor
leaves the stored snapshot and the registered callback list unchanged,
fires no callbacks, and returns the freshly enumerated interface
sequence. -/
theorem detectCall_state_free (st : NetworkMonitor)
    (enum : Option (List Ifaddr)) :
    (st.detectCall enum).1 = st ∧
    (st.detectCall enum).1.getNetworkInterfaces = st.getNetworkInterfaces ∧
    (st.detectCall enum).1.m_callbacks = st.m_callbacks ∧
    (st.detectCall enum).2.2 = [] ∧
    (st.detectCall enum).2.1 = detectNetworkInterfacesOf enum :=
  ⟨rfl, rfl, rfl, rfl, rfl⟩

/-- Characterization of `ipLine` through its filter `relevantLine`. -/
theorem ipLine_eq (iface : NetworkInterface) :
    ipLine iface =
      if relevantLine iface then some (iface.ipAddress ++ "\n") else none := by
  unfold ipLine relevantLine
  split_ifs with h1 h2 <;> simp_all

/-- The write loop of `saveIpListToFile` produces exactly one line per
relevant interface, in iteration order. -/
theorem filterMap_ipLine (l : List NetworkInterface) :
    l.filterMap ipLine =
      (l.filter relevantLine).map (fun iface => iface.ipAddress ++ "\n") := by
  induction l with
  | nil => rfl
  | cons a t ih =>
    rw [List.filterMap_cons, List.filter_cons, ipLine_eq]
    by_cases h : relevantLine a = true
    · simp [h, ih]
    · simp [h, ih]

/-- C7: on a successful save the bytes written are exactly the
concatenation of one newline-terminated address line per relevant
interface of the detected snapshot, in iteration order; every such line
carries a non-empty address (so there is no blank line and no other
content); and on the end-to-end snapshot `[ifaEth0, ifaDown, ifaLo]`,
whose only relevant interface has address `192.168.1.5`, the file content
is exactly the line "192.168.1.5\n". -/
theorem saveIpListToFile_format (st : NetworkMonitor)
    (enum : Option (List Ifaddr)) :
    ((st.saveIpListToFile enum true).2.2 =
      some (String.join
        (((detectNetworkInterfacesOf enum).filter relevantLine).map
          (fun iface => iface.ipAddress ++ "\n")))) ∧
    (∀ iface ∈ (detectNetworkInterfacesOf enum).filter relevantLine,
      iface.ipAddress ≠ "") ∧
    (stInit.saveIpListToFile (some [ifaEth0, ifaDown, ifaLo]) true).2.2 =
      some "192.168.1.5\n" := by
  refine ⟨?_, ?_, ?_⟩
  · simp [NetworkMonitor.saveIpListToFile, filterMap_ipLine]
  · intro iface hmem he
    have h2 := (List.mem_filter.mp hmem).2
    unfold relevantLine at h2
    simp only [Bool.and_eq_true, Bool.not_eq_true'] at h2
    have h3 := h2.2.2
    rw [he] at h3
    have h4 : ("" : String).isEmpty = true := (String.isEmpty_iff "").mpr rfl
    rw [h3] at h4
    exact Bool.false_ne_true h4
  · decide

/-- Witness for C7: the relevant interface of the detected snapshot of
`[ifaEth0]` has a non-empty address. -/
theorem saveIpListToFile_format_witness :
    ifaceEth0.ipAddress ≠ "" :=
  (saveIpListToFile_format stInit (some [ifaEth0])).2.1 ifaceEth0 (by decide)

/-- C8: when `getifaddrs` fails outright, detection returns the empty
sequence, whose relevant set is empty, and a poll iteration on the failed
enumeration is identical to an iteration on an enumeration listing no
interfaces; the running flag and the callback list are untouched, so the
enumeration failure neither stops the loop nor loses state. -/
theorem detect_failure_like_empty (st : NetworkMonitor)
    (last : List NetworkInterface) :
    detectNetworkInterfacesOf none = [] ∧
    relevantIps (detectNetworkInterfacesOf none) = [] ∧
    st.monitorStep last none = st.monitorStep last (some []) ∧
    (st.monitorStep last none).1.m_running = st.m_running ∧
    (st.monitorStep last none).1.m_callbacks = st.m_callbacks := by
  refine ⟨rfl, rfl, rfl, ?_, ?_⟩ <;>
  · unfold NetworkMonitor.monitorStep
    dsimp only
    split_ifs <;> rfl

/-- C9: `start` and `stop` are idempotent on the running state: `start`
marks the monitor running and launches a thread only when not already
running (a second consecutive `start` changes nothing and launches no
second loop); `stop` merely clears the running flag, leaving the snapshot
and the callbacks alone and blocking on nothing, and a `stop` of a
non-running monitor changes nothing at all. -/
theorem start_stop_idempotent (st : NetworkMonitor) :
    st.start.1.m_running = true ∧
    st.start.1.start = (st.start.1, false) ∧
    (st.m_running = false → st.start.2 = true) ∧
    (st.m_running = true → st.start = (st, false)) ∧
    st.stop.m_running = false ∧
    st.stop.m_interfaces = st.m_interfaces ∧
    st.stop.m_callbacks = st.m_callbacks ∧
    (st.m_running = false → st.stop = st) := by
  obtain ⟨r, i, c⟩ := st
  cases r <;> simp [NetworkMonitor.start, NetworkMonitor.stop]

/-- Witness for C9: from the initial non-running state, the first `start`
launches the loop, a `start` of an already-running monitor is a no-op that
launches nothing, and `stop` of the non-running state is the identity. -/
theorem start_stop_idempotent_witness :
    stInit.start.2 = true ∧
    (NetworkMonitor.mk true [] []).start = (NetworkMonitor.mk true [] [], false) ∧
    stInit.stop = stInit :=
  ⟨(start_stop_idempotent stInit).2.2.1 rfl,
   (start_stop_idempotent (NetworkMonitor.mk true [] [])).2.2.2.1 rfl,
   (start_stop_idempotent stInit).2.2.2.2.2.2.2 rfl⟩

/-- C10: `saveIpListToFile` replaces the stored snapshot with the fresh
detection before the destination is opened: even when the call fails
because the file cannot be opened, the snapshot subsequently read by
`getNetworkInterfaces` is already the fresh detection result (while
nothing was written and the failure is reported). -/
theorem saveIpListToFile_stores_before_open (st : NetworkMonitor)
    (enum : Option (List Ifaddr)) (openOk : Bool) :
    (st.saveIpListToFile enum openOk).2.1.getNetworkInterfaces =
      detectNetworkInterfacesOf enum ∧
    (st.saveIpListToFile enum false).1 = false ∧
    (st.saveIpListToFile enum false).2.2 = none := by
  refine ⟨?_, rfl, rfl⟩
  cases openOk <;> rfl
